import Mathlib

/-!
The node os_cloud_node: PPS reset gating of the lidar handler.

Shallow embedding of the packet handlers of
`ouster_ros/src/os_cloud_node.cpp` (the lambdas
`trigger_reset_pps_second_counter`, `lidar_handler` and `imu_handler`
defined in `main`).

The handlers close over mutable locals of `main` (`batch`, `ls`, `cloud`,
`timestamp_translator`, `has_reset_pps_counter`); here these are the fields
of an explicit `Pipeline` state.  Calls on collaborators (the PPS reset
service client, the translator, the publishers) are recorded, in program
order, in an event trace returned next to the new state.

Code that the handlers call but that is declared elsewhere
(`ouster::ScanBatcher`, `TimestampTranslator`, `scan_to_cloud`,
`cloud_to_cloud_msg`, `packet_to_imu_msg`) is a parameter of the embedding
(`Collaborators`).  A small concrete instance, written after the spec, is
used to evaluate the handlers on concrete inputs.
-/

namespace OsCloudNode

/-! ## Data model -/

/-- A `std::chrono::milliseconds` literal (`300ms`, `500ms`) converted to the
nanosecond count it is compared with. -/
def ms (n : Int) : Int := n * 1000000

/-- Modelled from the spec: the column header of `ouster::LidarScan`
(declared in `ouster/lidar_scan.h`, not part of this file).  Spec section 3:
per-column header with device timestamp and status.  The timestamp is a
`std::chrono::nanoseconds` count (signed). -/
structure BlockHeader where
  timestamp : Int
  status : Nat
deriving DecidableEq

/-- Modelled from the spec: `ouster::LidarScan` (declared in
`ouster/lidar_scan.h`).  Spec section 3, ScanBuffer: column count W,
channel count H, one header per column, per-pixel samples for up to two
returns.  The handlers only inspect `headers`. -/
structure LidarScan where
  w : Nat
  h : Nat
  headers : List BlockHeader
  range : List (List Nat)
deriving DecidableEq

/-- Modelled from the spec: `sensor::UDPProfileLidar` (declared in
`ouster/types.h`).  Spec section 3, ReturnProfile: an enum with a
single-return and a dual-return value.  The source names only
`PROFILE_LIDAR_LEGACY`, the single-return profile. -/
inductive UDPProfileLidar where
  | PROFILE_LIDAR_LEGACY
  | PROFILE_RNG19_RFL8_SIG16_NIR16_DUAL
deriving DecidableEq

/-- The `ouster_ros::PacketMsg` message: a byte buffer. -/
structure PacketMsg where
  buf : List Nat
deriving DecidableEq

/-- The `std_srvs::Trigger::Response` message. -/
structure TriggerResponse where
  success : Bool
  message : List Char
deriving DecidableEq

/-- What the PPS reset service client (`pps_reset_client`, the external time
authority) answers during one invocation of the lidar handler:
the result of `exists()`, the result of `call(srv)`, and the field
`srv.response.time_of_reset` filled by a successful call. -/
structure PpsResetClient where
  service_exists : Bool
  call_ok : Bool
  time_of_reset : Int
deriving DecidableEq

/-- Modelled from the spec: the signatures of the code the handlers call that
is declared outside this file, taken as parameters, with the values
captured once at startup (`xyz_lut`, `sensor_frame`, `imu_frame`, `pf`)
folded into the functions.

* `B` state of `ouster::ScanBatcher`, `T` state of `TimestampTranslator`,
  `C` the `Cloud`, `M` the point cloud message, `I` the imu message.
* `batch b buf ls` is `batch(pm.buf.data(), ls)`: it returns whether the
  packet completed a scan, and the updated batcher and scan buffer.
* `cloud_to_cloud_msg` reads the translator; spec section 4.2: the
  translator changes state only through a reset. -/
structure Collaborators (B T C M I : Type) where
  udp_profile_lidar : UDPProfileLidar
  batch : B → List Nat → LidarScan → Bool × B × LidarScan
  resetPpsSecondCounter : T → Int → T
  scan_to_cloud : Int → LidarScan → C → Nat → C
  cloud_to_cloud_msg : C → Int → T → M
  packet_to_imu_msg : PacketMsg → I

/-- The mutable locals of `main` captured by reference by the handlers
(lines 75-86). -/
structure Pipeline (B T C : Type) where
  batch : B
  ls : LidarScan
  cloud : C
  timestamp_translator : T
  has_reset_pps_counter : Bool
deriving DecidableEq

/-- Calls made by a handler on its collaborators, in program order. -/
inductive Event (M I : Type) where
  | exists_query
  | call (ok : Bool)
  | resetPpsSecondCounter (time_of_reset : Int)
  | ros_info
  | publish_lidar (i : Nat) (msg : M)
  | publish_imu (msg : I)
deriving DecidableEq

variable {B T C M I : Type}

/-! ## The handlers -/

/-- Lines 53-56: `n_returns`. -/
def n_returns (d : Collaborators B T C M I) : Nat :=
  if d.udp_profile_lidar = UDPProfileLidar.PROFILE_LIDAR_LEGACY then 1 else 2

/-- Lines 88-93: the re-arm trigger.  Returns the new pipeline state, the
response, the returned value and the (empty) trace of collaborator calls. -/
def trigger_reset_pps_second_counter (st : Pipeline B T C) (_req : Unit)
    (res : TriggerResponse) :
    Pipeline B T C × TriggerResponse × Bool × List (Event M I) :=
  let st1 := { st with has_reset_pps_counter := false }
  let res1 := { res with success := true }
  (st1, res1, res1.success, [])

/-- Lines 104-107: `std::find_if` over the headers for the first one whose
timestamp is not zero; `none` stands for the iterator `headers.end()`. -/
def find_if (headers : List BlockHeader) : Option BlockHeader :=
  headers.find? (fun h => h.timestamp != 0)

/-- Lines 108-109: the window test `300ms < t && t < 500ms`. -/
def in_window (t : Int) : Bool :=
  decide (ms 300 < t) && decide (t < ms 500)

/-- Lines 110-119: the handshake with the PPS reset service. -/
def pps_reset (d : Collaborators B T C M I) (srv : PpsResetClient)
    (st : Pipeline B T C) : Pipeline B T C × List (Event M I) :=
  if srv.service_exists then
    if srv.call_ok then
      ({ st with
          timestamp_translator :=
            d.resetPpsSecondCounter st.timestamp_translator srv.time_of_reset
          has_reset_pps_counter := true },
        [Event.exists_query, Event.call true,
         Event.resetPpsSecondCounter srv.time_of_reset, Event.ros_info])
    else (st, [Event.exists_query, Event.call false])
  else (st, [Event.exists_query])

/-- Lines 122-127: the loop `for (int i = 0; i < n_returns; i++)`, with `k`
iterations left to run from index `i`. -/
def publish_returns (d : Collaborators B T C M I) (ts : Int) (ls : LidarScan)
    (tr : T) : Nat → Nat → C → C × List (Event M I)
  | 0, _, cloud => (cloud, [])
  | k + 1, i, cloud =>
    let cloud1 := d.scan_to_cloud ts ls cloud i
    let r := publish_returns d ts ls tr k (i + 1) cloud1
    (r.1, Event.publish_lidar i (d.cloud_to_cloud_msg cloud1 ts tr) :: r.2)

/-- Lines 101-130: the lidar handler.  The result is `none` when the handler
reads `h->timestamp` with `h == ls.headers.end()`, which is undefined
behaviour. -/
def lidar_handler (d : Collaborators B T C M I) (srv : PpsResetClient)
    (st : Pipeline B T C) (pm : PacketMsg) :
    Option (Pipeline B T C × List (Event M I)) :=
  match d.batch st.batch pm.buf st.ls with
  | (false, b, ls) => some ({ st with batch := b, ls := ls }, [])
  | (true, b, ls) =>
    let st0 : Pipeline B T C := { st with batch := b, ls := ls }
    let h := find_if ls.headers
    let gate : Option (Pipeline B T C × List (Event M I)) :=
      if st0.has_reset_pps_counter then some (st0, [])
      else
        match h with
        | none => none
        | some hd =>
          if in_window hd.timestamp then some (pps_reset d srv st0)
          else some (st0, [])
    match gate with
    | none => none
    | some (st1, ev1) =>
      match h with
      | none => some (st1, ev1)
      | some hd =>
        let r := publish_returns d hd.timestamp st1.ls
          st1.timestamp_translator (n_returns d) 0 st1.cloud
        some ({ st1 with cloud := r.1 }, ev1 ++ r.2)

/-- Lines 132-134: the imu handler. -/
def imu_handler (d : Collaborators B T C M I) (st : Pipeline B T C)
    (p : PacketMsg) : Pipeline B T C × List (Event M I) :=
  (st, [Event.publish_imu (d.packet_to_imu_msg p)])

/-- Processing a sequence of lidar packets, one handler invocation each, with
the answers the PPS reset service gives during each invocation; no re-arm
trigger runs in between.  The traces are concatenated. -/
def run (d : Collaborators B T C M I) :
    Pipeline B T C → List (PpsResetClient × PacketMsg) →
    Option (Pipeline B T C × List (Event M I))
  | st, [] => some (st, [])
  | st, (srv, pm) :: rest =>
    match lidar_handler d srv st pm with
    | none => none
    | some (st1, ev1) =>
      match run d st1 rest with
      | none => none
      | some (st2, ev2) => some (st2, ev1 ++ ev2)

/-! ## Observations on traces and scans -/

/-- The event is a call of the PPS reset service (`pps_reset_client.call`). -/
def is_call : Event M I → Bool
  | Event.call _ => true
  | _ => false

/-- The event is a call of the PPS reset service that reported failure. -/
def is_failed_call : Event M I → Bool
  | Event.call false => true
  | _ => false

/-- The event is a call of `resetPpsSecondCounter` on the translator. -/
def is_reset : Event M I → Bool
  | Event.resetPpsSecondCounter _ => true
  | _ => false

/-- The event is a call of `pps_reset_client.exists()`. -/
def is_exists_query : Event M I → Bool
  | Event.exists_query => true
  | _ => false

/-- Number of PPS reset service calls in a trace. -/
def calls (evs : List (Event M I)) : Nat := evs.countP is_call

/-- Number of PPS reset service calls in a trace that reported failure. -/
def failed_calls (evs : List (Event M I)) : Nat := evs.countP is_failed_call

/-- Number of `resetPpsSecondCounter` calls in a trace. -/
def resets (evs : List (Event M I)) : Nat := evs.countP is_reset

/-- The point cloud frames published in a trace, with the index of the
publisher (the return index), in order. -/
def frames (evs : List (Event M I)) : List (Nat × M) :=
  evs.filterMap fun e =>
    match e with
    | Event.publish_lidar i m => some (i, m)
    | _ => none

/-- What the packet does to the scan: `none` when it completes no scan,
`some none` when it completes a scan all of whose header timestamps are
zero, `some (some t)` when it completes a scan whose first non-zero header
timestamp is `t`. -/
def completed_scan_ts (d : Collaborators B T C M I) (st : Pipeline B T C)
    (pm : PacketMsg) : Option (Option Int) :=
  match d.batch st.batch pm.buf st.ls with
  | (false, _, _) => none
  | (true, _, ls) => some ((find_if ls.headers).map fun h => h.timestamp)

/-- The packet completes a scan whose first non-zero header timestamp lies
strictly inside (300 ms, 500 ms). -/
def scan_in_window (d : Collaborators B T C M I) (st : Pipeline B T C)
    (pm : PacketMsg) : Bool :=
  match completed_scan_ts d st pm with
  | some (some t) => in_window t
  | _ => false

/-- The packet completes no scan, or completes one whose first non-zero
header timestamp lies strictly inside (300 ms, 500 ms): every scan completed
is in the window, and packets that complete no scan may come in between. -/
def scan_in_window_if_completed (d : Collaborators B T C M I)
    (st : Pipeline B T C) (pm : PacketMsg) : Bool :=
  match completed_scan_ts d st pm with
  | none => true
  | some (some t) => in_window t
  | some none => false

/-- The packet completes no scan, or completes one whose first non-zero
header timestamp exists and is not strictly inside (300 ms, 500 ms). -/
def scan_off_window (d : Collaborators B T C M I) (st : Pipeline B T C)
    (pm : PacketMsg) : Bool :=
  match completed_scan_ts d st pm with
  | none => true
  | some (some t) => !in_window t
  | some none => false

/-- Every packet of the sequence satisfies `p` in the state in which the
handler receives it.  (A handler invocation that has no defined result ends
the sequence; the theorems below show this does not happen for the two
predicates above.) -/
def along (p : Collaborators B T C M I → Pipeline B T C → PacketMsg → Bool)
    (d : Collaborators B T C M I) :
    Pipeline B T C → List (PpsResetClient × PacketMsg) → Bool
  | _, [] => true
  | st, (srv, pm) :: rest =>
    p d st pm &&
      match lidar_handler d srv st pm with
      | some (st1, (_ : List (Event M I))) => along p d st1 rest
      | none => true

/-- A handler invocation that does not enter the handshake gate: no call on
the service or on the translator, flag and translator as before. -/
def quiet_step (st st1 : Pipeline B T C) (evs : List (Event M I)) : Prop :=
  calls evs = 0 ∧ resets evs = 0 ∧ evs.countP is_exists_query = 0 ∧
    st1.has_reset_pps_counter = st.has_reset_pps_counter ∧
    st1.timestamp_translator = st.timestamp_translator

/-- The packets `mid` complete no scan in the window and the packet `pm`
that follows them does: `pm` completes the next scan, after state `st`,
whose first non-zero header timestamp lies strictly inside (300 ms, 500 ms). -/
def next_scan_in_window (d : Collaborators B T C M I) (st : Pipeline B T C)
    (mid : List (PpsResetClient × PacketMsg)) (pm : PacketMsg) : Bool :=
  along scan_off_window d st mid &&
    match run d st mid with
    | some (st2, (_ : List (Event M I))) => scan_in_window d st2 pm
    | none => true

/-! ## A concrete instance of the collaborators, after the spec -/

/-- Modelled from the spec: the state of `TimestampTranslator`, a class that
is not part of this file.  Spec section 3, SyncState: Unsynced or Synced,
recorded reference epoch, recorded device offset at the epoch. -/
structure SyncState where
  synced : Bool
  reference_epoch : Int
  device_offset_at_sync : Int
deriving DecidableEq

/-- Modelled from the spec: `translate` of the translator, spec section 4.2:
Synced adds the offset captured at the last reset, Unsynced returns the
device timestamp unmodified. -/
def SyncState.translate (s : SyncState) (device_ts : Int) : Int :=
  if s.synced then device_ts + (s.reference_epoch - s.device_offset_at_sync)
  else device_ts

/-- Modelled from the spec: `apply_reset` of the translator, spec section
4.2: records the reference epoch and the device offset, becomes Synced. -/
def SyncState.apply_reset (_s : SyncState)
    (device_ts_at_reset reference_time_of_reset : Int) : SyncState :=
  { synced := true
    reference_epoch := reference_time_of_reset
    device_offset_at_sync := device_ts_at_reset }

/-- Little-endian value of a byte string. -/
def decode_le : List Nat → Nat
  | [] => 0
  | b :: bs => b + 256 * decode_le bs

/-- Modelled from the spec: the state of `ouster::ScanBatcher` (declared in
`ouster/lidar_scan.h`): the column index written last. -/
structure ScanBatcher where
  last_column : Option Nat
deriving DecidableEq

/-- Modelled from the spec: `feed` of the Scan Batcher, spec section 4.1.
The column header is written at the column index carried by the packet; the
rotation is complete when that index is not above the one written before; a
packet with no column or an out-of-range column index is dropped.  The wire
layout is not given by the spec; here a packet carries one column, byte 0
is the column index and the other bytes are the column timestamp,
little-endian. -/
def ScanBatcher.feed (b : ScanBatcher) (buf : List Nat) (ls : LidarScan) :
    Bool × ScanBatcher × LidarScan :=
  match buf with
  | [] => (false, b, ls)
  | col :: bytes =>
    if col < ls.headers.length then
      let hdr : BlockHeader := { timestamp := Int.ofNat (decode_le bytes), status := 1 }
      let ls1 := { ls with headers := ls.headers.set col hdr }
      let wrapped :=
        match b.last_column with
        | some prev => decide (col ≤ prev)
        | none => false
      (wrapped, { last_column := some col }, ls1)
    else (false, b, ls)

/-- Modelled from the spec: a PointCloudFrame before stamping, spec section
3, reduced to the return index and one coordinate per pixel. -/
structure Cloud where
  return_index : Nat
  points : List Nat
deriving DecidableEq

/-- Modelled from the spec: the emitted PointCloudFrame with its translated
timestamp, spec sections 3 and 4.4. -/
structure CloudMsg where
  stamp : Int
  return_index : Nat
  points : List Nat
deriving DecidableEq

/-- Modelled from the spec: the emitted inertial sample, spec section 4.4,
reduced to its timestamp, which is read from the packet. -/
structure ImuMsg where
  stamp : Int
deriving DecidableEq

/-- Modelled from the spec: an instance of the collaborators that are not
part of this file, following spec sections 4.1, 4.2 and 4.4.  The source
passes only the reference time to `resetPpsSecondCounter`; the device
counter restarts at the reset, so the device time at the reset is taken to
be 0. -/
def spec_collaborators (profile : UDPProfileLidar) :
    Collaborators ScanBatcher SyncState Cloud CloudMsg ImuMsg :=
  { udp_profile_lidar := profile
    batch := ScanBatcher.feed
    resetPpsSecondCounter := fun s r => s.apply_reset 0 r
    scan_to_cloud := fun _ ls _ i =>
      { return_index := i, points := ls.range.getD i [] }
    cloud_to_cloud_msg := fun c ts tr =>
      { stamp := tr.translate ts, return_index := c.return_index, points := c.points }
    packet_to_imu_msg := fun p => { stamp := Int.ofNat (decode_le p.buf) } }

/-- A two-column scan buffer whose headers are still zero. -/
def ls0 : LidarScan :=
  { w := 2, h := 1
    headers := [{ timestamp := 0, status := 0 }, { timestamp := 0, status := 0 }]
    range := [[5, 6], [7, 8]] }

/-- A pipeline in which column 1 was written last, so that a packet for
column 0 completes the rotation; the translator is Unsynced. -/
def pipeline0 (flag : Bool) : Pipeline ScanBatcher SyncState Cloud :=
  { batch := { last_column := some 1 }
    ls := ls0
    cloud := { return_index := 0, points := [] }
    timestamp_translator := { synced := false, reference_epoch := 0, device_offset_at_sync := 0 }
    has_reset_pps_counter := flag }

/-- A packet for column 0 whose timestamp is 400 ms (0x17D78400 ns). -/
def packet_400ms : PacketMsg := { buf := [0, 0x00, 0x84, 0xD7, 0x17] }

/-- A packet for column 0 whose timestamp is 300 ms (0x11E1A300 ns). -/
def packet_300ms : PacketMsg := { buf := [0, 0x00, 0xA3, 0xE1, 0x11] }

/-- A packet for column 0 whose timestamp is 500 ms (0x1DCD6500 ns). -/
def packet_500ms : PacketMsg := { buf := [0, 0x00, 0x65, 0xCD, 0x1D] }

/-- A packet for column 0 whose timestamp is zero. -/
def packet_zero : PacketMsg := { buf := [0, 0] }

/-- The scan buffer `ls0` after the header of column 0 was written with the
timestamp `ts`. -/
def scan_after (ts : Int) : LidarScan :=
  { ls0 with headers := [{ timestamp := ts, status := 1 }, { timestamp := 0, status := 0 }] }

/-- The service exists and its call succeeds with `time_of_reset` 7 s. -/
def srv_ok : PpsResetClient :=
  { service_exists := true, call_ok := true, time_of_reset := 7000000000 }

/-- The service exists and its call fails. -/
def srv_fail : PpsResetClient :=
  { service_exists := true, call_ok := false, time_of_reset := 0 }

/-- The service does not exist. -/
def srv_down : PpsResetClient :=
  { service_exists := false, call_ok := false, time_of_reset := 0 }

/-- The dual-return instance of the collaborators. -/
def dual : Collaborators ScanBatcher SyncState Cloud CloudMsg ImuMsg :=
  spec_collaborators UDPProfileLidar.PROFILE_RNG19_RFL8_SIG16_NIR16_DUAL

/-- An inertial packet whose timestamp is 400 ms. -/
def packet_imu : PacketMsg := { buf := [0x00, 0x84, 0xD7, 0x17] }

/-- The pipeline `pipeline0` with the translator Synced on the reference
epoch `epoch`. -/
def pipeline_anchored (flag : Bool) (epoch : Int) :
    Pipeline ScanBatcher SyncState Cloud :=
  { pipeline0 flag with
    timestamp_translator :=
      { synced := true, reference_epoch := epoch, device_offset_at_sync := 0 } }

/-- A packet for column 1 whose timestamp is 450 ms (0x1AD27480 ns). -/
def packet_col1 : PacketMsg := { buf := [1, 0x80, 0x74, 0xD2, 0x1A] }

/-! ## Lemmas on the handlers -/

theorem countP_publish_returns (p : Event M I → Bool)
    (hp : ∀ i m, p (Event.publish_lidar i m) = false)
    (d : Collaborators B T C M I) (ts : Int) (ls : LidarScan) (tr : T)
    (k i : Nat) (c : C) :
    (publish_returns d ts ls tr k i c).2.countP p = 0 := by
  induction k generalizing i c with
  | zero => simp [publish_returns]
  | succ k ih => simp [publish_returns, List.countP_cons, hp, ih]

theorem frames_publish_returns_index (d : Collaborators B T C M I) (ts : Int)
    (ls : LidarScan) (tr : T) (k i : Nat) (c : C) :
    (frames (publish_returns d ts ls tr k i c).2).map Prod.fst = List.range' i k := by
  induction k generalizing i c with
  | zero => simp [publish_returns, frames]
  | succ k ih =>
    have h := ih (i + 1) (d.scan_to_cloud ts ls c i)
    simp only [frames] at h
    simp [publish_returns, frames, List.range', h]

theorem frames_publish_returns_stamp (d : Collaborators B T C M I) (ts : Int)
    (ls : LidarScan) (tr : T) (k i : Nat) (c : C) :
    ∀ f ∈ frames (publish_returns d ts ls tr k i c).2,
      ∃ c0, f.2 = d.cloud_to_cloud_msg (d.scan_to_cloud ts ls c0 f.1) ts tr := by
  induction k generalizing i c with
  | zero => simp [publish_returns, frames]
  | succ k ih =>
    have h := ih (i + 1) (d.scan_to_cloud ts ls c i)
    simp only [frames] at h
    intro f hf
    simp only [publish_returns, frames, List.filterMap_cons, List.mem_cons] at hf
    rcases hf with rfl | hf
    · exact ⟨c, rfl⟩
    · exact h f hf

theorem frames_publish_returns_length (d : Collaborators B T C M I) (ts : Int)
    (ls : LidarScan) (tr : T) (k i : Nat) (c : C) :
    (frames (publish_returns d ts ls tr k i c).2).length = k := by
  have h := congrArg List.length (frames_publish_returns_index d ts ls tr k i c)
  simpa using h

theorem frames_append (xs ys : List (Event M I)) :
    frames (xs ++ ys) = frames xs ++ frames ys := by
  simp [frames]

theorem frames_pps_reset (d : Collaborators B T C M I) (srv : PpsResetClient)
    (st : Pipeline B T C) : frames (pps_reset d srv st).2 = [] := by
  unfold pps_reset
  split <;> [split; skip] <;> simp [frames]

theorem pps_reset_ls (d : Collaborators B T C M I) (srv : PpsResetClient)
    (st : Pipeline B T C) : (pps_reset d srv st).1.ls = st.ls := by
  unfold pps_reset
  split <;> [split; skip] <;> rfl

theorem pps_reset_cloud (d : Collaborators B T C M I) (srv : PpsResetClient)
    (st : Pipeline B T C) : (pps_reset d srv st).1.cloud = st.cloud := by
  unfold pps_reset
  split <;> [split; skip] <;> rfl

theorem lidar_handler_incomplete (d : Collaborators B T C M I)
    (srv : PpsResetClient) (st : Pipeline B T C) (pm : PacketMsg) (b : B)
    (ls : LidarScan) (hb : d.batch st.batch pm.buf st.ls = (false, b, ls)) :
    lidar_handler d srv st pm = some ({ st with batch := b, ls := ls }, []) := by
  simp [lidar_handler, hb]

theorem lidar_handler_closed (d : Collaborators B T C M I)
    (srv : PpsResetClient) (st : Pipeline B T C) (pm : PacketMsg) (b : B)
    (ls : LidarScan) (hd : BlockHeader)
    (hb : d.batch st.batch pm.buf st.ls = (true, b, ls))
    (hf : find_if ls.headers = some hd)
    (hg : st.has_reset_pps_counter = true ∨ in_window hd.timestamp = false) :
    lidar_handler d srv st pm =
      some ({ st with
              batch := b, ls := ls
              cloud := (publish_returns d hd.timestamp ls st.timestamp_translator
                (n_returns d) 0 st.cloud).1 },
        (publish_returns d hd.timestamp ls st.timestamp_translator
          (n_returns d) 0 st.cloud).2) := by
  rcases hg with hg | hg
  · simp [lidar_handler, hb, hf, hg]
  · cases hflag : st.has_reset_pps_counter <;> simp [lidar_handler, hb, hf, hg, hflag]

theorem lidar_handler_open (d : Collaborators B T C M I)
    (srv : PpsResetClient) (st : Pipeline B T C) (pm : PacketMsg) (b : B)
    (ls : LidarScan) (hd : BlockHeader)
    (hb : d.batch st.batch pm.buf st.ls = (true, b, ls))
    (hf : find_if ls.headers = some hd)
    (hflag : st.has_reset_pps_counter = false)
    (hw : in_window hd.timestamp = true) :
    lidar_handler d srv st pm =
      some ({ (pps_reset d srv { st with batch := b, ls := ls }).1 with
              cloud := (publish_returns d hd.timestamp ls
                (pps_reset d srv { st with batch := b, ls := ls }).1.timestamp_translator
                (n_returns d) 0 st.cloud).1 },
        (pps_reset d srv { st with batch := b, ls := ls }).2 ++
          (publish_returns d hd.timestamp ls
            (pps_reset d srv { st with batch := b, ls := ls }).1.timestamp_translator
            (n_returns d) 0 st.cloud).2) := by
  simp [lidar_handler, hb, hf, hflag, hw, pps_reset_ls, pps_reset_cloud]

theorem lidar_handler_armed_no_header (d : Collaborators B T C M I)
    (srv : PpsResetClient) (st : Pipeline B T C) (pm : PacketMsg) (b : B)
    (ls : LidarScan)
    (hb : d.batch st.batch pm.buf st.ls = (true, b, ls))
    (hf : find_if ls.headers = none)
    (hflag : st.has_reset_pps_counter = true) :
    lidar_handler d srv st pm = some ({ st with batch := b, ls := ls }, []) := by
  simp [lidar_handler, hb, hf, hflag]

theorem scan_in_window_elim (d : Collaborators B T C M I) (st : Pipeline B T C)
    (pm : PacketMsg) (h : scan_in_window d st pm = true) :
    ∃ b ls hd, d.batch st.batch pm.buf st.ls = (true, b, ls) ∧
      find_if ls.headers = some hd ∧ in_window hd.timestamp = true := by
  unfold scan_in_window completed_scan_ts at h
  rcases hb : d.batch st.batch pm.buf st.ls with ⟨c, b, ls⟩
  rw [hb] at h
  cases c with
  | false => simp at h
  | true =>
    cases hf : find_if ls.headers with
    | none => simp [hf] at h
    | some hd => exact ⟨b, ls, hd, rfl, hf, by simpa [hf] using h⟩

theorem scan_off_window_elim (d : Collaborators B T C M I) (st : Pipeline B T C)
    (pm : PacketMsg) (h : scan_off_window d st pm = true) :
    (∃ b ls, d.batch st.batch pm.buf st.ls = (false, b, ls)) ∨
    (∃ b ls hd, d.batch st.batch pm.buf st.ls = (true, b, ls) ∧
      find_if ls.headers = some hd ∧ in_window hd.timestamp = false) := by
  unfold scan_off_window completed_scan_ts at h
  rcases hb : d.batch st.batch pm.buf st.ls with ⟨c, b, ls⟩
  rw [hb] at h
  cases c with
  | false => exact Or.inl ⟨b, ls, rfl⟩
  | true =>
    cases hf : find_if ls.headers with
    | none => simp [hf] at h
    | some hd => exact Or.inr ⟨b, ls, hd, rfl, hf, by simpa [hf] using h⟩

theorem quiet_closed (d : Collaborators B T C M I)
    (srv : PpsResetClient) (st : Pipeline B T C) (pm : PacketMsg) (b : B)
    (ls : LidarScan) (hd : BlockHeader)
    (hb : d.batch st.batch pm.buf st.ls = (true, b, ls))
    (hf : find_if ls.headers = some hd)
    (hg : st.has_reset_pps_counter = true ∨ in_window hd.timestamp = false) :
    ∃ st1 evs, lidar_handler d srv st pm = some (st1, evs) ∧ quiet_step st st1 evs := by
  refine ⟨_, _, lidar_handler_closed d srv st pm b ls hd hb hf hg, ?_⟩
  refine ⟨?_, ?_, ?_, rfl, rfl⟩
  · exact countP_publish_returns _ (fun _ _ => rfl) ..
  · exact countP_publish_returns _ (fun _ _ => rfl) ..
  · exact countP_publish_returns _ (fun _ _ => rfl) ..

theorem quiet_flag_true (d : Collaborators B T C M I)
    (srv : PpsResetClient) (st : Pipeline B T C) (pm : PacketMsg)
    (hflag : st.has_reset_pps_counter = true) :
    ∃ st1 evs, lidar_handler d srv st pm = some (st1, evs) ∧ quiet_step st st1 evs := by
  rcases hb : d.batch st.batch pm.buf st.ls with ⟨c, b, ls⟩
  cases c with
  | false =>
    exact ⟨_, _, lidar_handler_incomplete d srv st pm b ls hb,
      rfl, rfl, rfl, rfl, rfl⟩
  | true =>
    cases hf : find_if ls.headers with
    | none =>
      exact ⟨_, _, lidar_handler_armed_no_header d srv st pm b ls hb hf hflag,
        rfl, rfl, rfl, rfl, rfl⟩
    | some hd => exact quiet_closed d srv st pm b ls hd hb hf (Or.inl hflag)

theorem quiet_off_window (d : Collaborators B T C M I)
    (srv : PpsResetClient) (st : Pipeline B T C) (pm : PacketMsg)
    (h : scan_off_window d st pm = true) :
    ∃ st1 evs, lidar_handler d srv st pm = some (st1, evs) ∧ quiet_step st st1 evs := by
  rcases scan_off_window_elim d st pm h with ⟨b, ls, hb⟩ | ⟨b, ls, hd, hb, hf, hw⟩
  · exact ⟨_, _, lidar_handler_incomplete d srv st pm b ls hb,
      rfl, rfl, rfl, rfl, rfl⟩
  · exact quiet_closed d srv st pm b ls hd hb hf (Or.inr hw)

theorem run_cons (d : Collaborators B T C M I) (srv : PpsResetClient)
    (st st1 st2 : Pipeline B T C) (pm : PacketMsg)
    (rest : List (PpsResetClient × PacketMsg)) (ev1 ev2 : List (Event M I))
    (h1 : lidar_handler d srv st pm = some (st1, ev1))
    (h2 : run d st1 rest = some (st2, ev2)) :
    run d st ((srv, pm) :: rest) = some (st2, ev1 ++ ev2) := by
  simp [run, h1, h2]

theorem along_cons (p : Collaborators B T C M I → Pipeline B T C → PacketMsg → Bool)
    (d : Collaborators B T C M I) (srv : PpsResetClient)
    (st st1 : Pipeline B T C) (pm : PacketMsg)
    (rest : List (PpsResetClient × PacketMsg)) (ev1 : List (Event M I))
    (h1 : lidar_handler d srv st pm = some (st1, ev1))
    (h : along p d st ((srv, pm) :: rest) = true) :
    p d st pm = true ∧ along p d st1 rest = true := by
  simpa [along, h1] using h

theorem run_flag_true (d : Collaborators B T C M I) (st : Pipeline B T C)
    (steps : List (PpsResetClient × PacketMsg))
    (hflag : st.has_reset_pps_counter = true) :
    ∃ st1 evs, run d st steps = some (st1, evs) ∧ quiet_step st st1 evs := by
  induction steps generalizing st with
  | nil => exact ⟨st, [], rfl, rfl, rfl, rfl, rfl, rfl⟩
  | cons x rest ih =>
    obtain ⟨srv, pm⟩ := x
    obtain ⟨st1, ev1, h1, c1, r1, q1, f1, t1⟩ := quiet_flag_true d srv st pm hflag
    obtain ⟨st2, ev2, h2, c2, r2, q2, f2, t2⟩ := ih st1 (f1.trans hflag)
    refine ⟨st2, ev1 ++ ev2, run_cons d srv st st1 st2 pm rest ev1 ev2 h1 h2, ?_⟩
    simp only [calls, resets] at c1 c2 r1 r2
    exact ⟨by simp [calls, List.countP_append, c1, c2],
      by simp [resets, List.countP_append, r1, r2],
      by simp [List.countP_append, q1, q2], f2.trans f1, t2.trans t1⟩

theorem run_off_window (d : Collaborators B T C M I) (st : Pipeline B T C)
    (steps : List (PpsResetClient × PacketMsg))
    (h : along scan_off_window d st steps = true) :
    ∃ st1 evs, run d st steps = some (st1, evs) ∧ quiet_step st st1 evs := by
  induction steps generalizing st with
  | nil => exact ⟨st, [], rfl, rfl, rfl, rfl, rfl, rfl⟩
  | cons x rest ih =>
    obtain ⟨srv, pm⟩ := x
    have hp : scan_off_window d st pm = true := by
      simp only [along, Bool.and_eq_true] at h
      exact h.1
    obtain ⟨st1, ev1, h1, c1, r1, q1, f1, t1⟩ := quiet_off_window d srv st pm hp
    obtain ⟨st2, ev2, h2, c2, r2, q2, f2, t2⟩ :=
      ih st1 (along_cons scan_off_window d srv st st1 pm rest ev1 h1 h).2
    refine ⟨st2, ev1 ++ ev2, run_cons d srv st st1 st2 pm rest ev1 ev2 h1 h2, ?_⟩
    simp only [calls, resets] at c1 c2 r1 r2
    exact ⟨by simp [calls, List.countP_append, c1, c2],
      by simp [resets, List.countP_append, r1, r2],
      by simp [List.countP_append, q1, q2], f2.trans f1, t2.trans t1⟩

theorem open_summary (d : Collaborators B T C M I)
    (srv : PpsResetClient) (st : Pipeline B T C) (pm : PacketMsg) (b : B)
    (ls : LidarScan) (hd : BlockHeader)
    (hb : d.batch st.batch pm.buf st.ls = (true, b, ls))
    (hf : find_if ls.headers = some hd)
    (hflag : st.has_reset_pps_counter = false)
    (hw : in_window hd.timestamp = true) :
    ∃ st1 evs, lidar_handler d srv st pm = some (st1, evs) ∧
      evs.countP is_exists_query = 1 ∧
      calls evs = (if srv.service_exists then 1 else 0) ∧
      failed_calls evs = (if srv.service_exists && !srv.call_ok then 1 else 0) ∧
      resets evs = (if srv.service_exists && srv.call_ok then 1 else 0) ∧
      st1.has_reset_pps_counter = (srv.service_exists && srv.call_ok) ∧
      st1.timestamp_translator =
        (if srv.service_exists && srv.call_ok then
          d.resetPpsSecondCounter st.timestamp_translator srv.time_of_reset
        else st.timestamp_translator) := by
  refine ⟨_, _, lidar_handler_open d srv st pm b ls hd hb hf hflag hw, ?_⟩
  have q1 := countP_publish_returns (is_exists_query : Event M I → Bool) (fun _ _ => rfl) d
  have q2 := countP_publish_returns (is_call : Event M I → Bool) (fun _ _ => rfl) d
  have q3 := countP_publish_returns (is_failed_call : Event M I → Bool) (fun _ _ => rfl) d
  have q4 := countP_publish_returns (is_reset : Event M I → Bool) (fun _ _ => rfl) d
  obtain ⟨e, o, r⟩ := srv
  cases e <;> cases o <;>
    simp [pps_reset, calls, failed_calls, resets, List.countP_append, List.countP_cons,
      q1, q2, q3, q4, hflag, is_exists_query, is_call, is_failed_call, is_reset]

theorem in_window_iff (t : Int) :
    in_window t = true ↔ ms 300 < t ∧ t < ms 500 := by
  simp [in_window]

theorem calls_append (xs ys : List (Event M I)) :
    calls (xs ++ ys) = calls xs + calls ys := by
  simp [calls]

theorem failed_calls_append (xs ys : List (Event M I)) :
    failed_calls (xs ++ ys) = failed_calls xs + failed_calls ys := by
  simp [failed_calls]

theorem resets_append (xs ys : List (Event M I)) :
    resets (xs ++ ys) = resets xs + resets ys := by
  simp [resets]

theorem failed_calls_le_calls (evs : List (Event M I)) :
    failed_calls evs ≤ calls evs := by
  unfold failed_calls calls
  apply List.countP_mono_left
  intro e _ he
  cases e with
  | call ok => rfl
  | _ => simp [is_failed_call] at he

theorem lidar_handler_deref_end (d : Collaborators B T C M I)
    (srv : PpsResetClient) (st : Pipeline B T C) (pm : PacketMsg) (b : B)
    (ls : LidarScan)
    (hb : d.batch st.batch pm.buf st.ls = (true, b, ls))
    (hf : find_if ls.headers = none)
    (hflag : st.has_reset_pps_counter = false) :
    lidar_handler d srv st pm = none := by
  simp [lidar_handler, hb, hf, hflag]

theorem scan_in_window_if_completed_elim (d : Collaborators B T C M I)
    (st : Pipeline B T C) (pm : PacketMsg)
    (h : scan_in_window_if_completed d st pm = true) :
    (∃ b ls, d.batch st.batch pm.buf st.ls = (false, b, ls)) ∨
    (∃ b ls hd, d.batch st.batch pm.buf st.ls = (true, b, ls) ∧
      find_if ls.headers = some hd ∧ in_window hd.timestamp = true) := by
  unfold scan_in_window_if_completed completed_scan_ts at h
  rcases hb : d.batch st.batch pm.buf st.ls with ⟨c, b, ls⟩
  rw [hb] at h
  cases c with
  | false => exact Or.inl ⟨b, ls, rfl⟩
  | true =>
    cases hf : find_if ls.headers with
    | none => simp [hf] at h
    | some hd => exact Or.inr ⟨b, ls, hd, rfl, hf, by simpa [hf] using h⟩

theorem run_in_window (d : Collaborators B T C M I) (st : Pipeline B T C)
    (steps : List (PpsResetClient × PacketMsg))
    (hflag : st.has_reset_pps_counter = false)
    (hwin : along scan_in_window_if_completed d st steps = true) :
    ∃ st1 evs, run d st steps = some (st1, evs) ∧
      calls evs = failed_calls evs + resets evs ∧ resets evs ≤ 1 := by
  induction steps generalizing st with
  | nil => exact ⟨st, [], rfl, rfl, by simp [resets]⟩
  | cons x rest ih =>
    obtain ⟨srv, pm⟩ := x
    have hp : scan_in_window_if_completed d st pm = true := by
      simp only [along, Bool.and_eq_true] at hwin
      exact hwin.1
    rcases scan_in_window_if_completed_elim d st pm hp with
      ⟨b, ls, hb⟩ | ⟨b, ls, hd, hb, hf, hw⟩
    · have h1 := lidar_handler_incomplete d srv st pm b ls hb
      have hrest :=
        (along_cons scan_in_window_if_completed d srv st _ pm rest _ h1 hwin).2
      obtain ⟨st2, ev2, h2, c2, r2⟩ := ih { st with batch := b, ls := ls } hflag hrest
      exact ⟨st2, [] ++ ev2, run_cons d srv st _ st2 pm rest [] ev2 h1 h2,
        by simpa using c2, by simpa using r2⟩
    · obtain ⟨st1, ev1, h1, -, c1, f1, r1, g1, -⟩ :=
        open_summary d srv st pm b ls hd hb hf hflag hw
      have hrest :=
        (along_cons scan_in_window_if_completed d srv st st1 pm rest ev1 h1 hwin).2
      cases hs : (srv.service_exists && srv.call_ok) with
      | true =>
        rw [hs] at g1
        obtain ⟨st2, ev2, h2, c2, r2, -, -, -⟩ := run_flag_true d st1 rest g1
        have f2 : failed_calls ev2 = 0 :=
          Nat.le_zero.1 (c2 ▸ failed_calls_le_calls ev2)
        refine ⟨st2, ev1 ++ ev2, run_cons d srv st st1 st2 pm rest ev1 ev2 h1 h2, ?_⟩
        rw [calls_append, failed_calls_append, resets_append, c2, r2, f2, c1, f1, r1]
        obtain ⟨e, o, r⟩ := srv
        cases e <;> cases o <;> simp_all
      | false =>
        rw [hs] at g1
        obtain ⟨st2, ev2, h2, c2, r2⟩ := ih st1 g1 hrest
        refine ⟨st2, ev1 ++ ev2, run_cons d srv st st1 st2 pm rest ev1 ev2 h1 h2, ?_⟩
        rw [calls_append, failed_calls_append, resets_append, c1, f1, r1]
        obtain ⟨e, o, r⟩ := srv
        cases e <;> cases o <;> (simp_all; try omega)

theorem next_scan_summary (d : Collaborators B T C M I) (st : Pipeline B T C)
    (mid : List (PpsResetClient × PacketMsg)) (srv : PpsResetClient)
    (pm : PacketMsg) (hflag : st.has_reset_pps_counter = false)
    (hn : next_scan_in_window d st mid pm = true) :
    ∃ st2 evm st3 ev3, run d st mid = some (st2, evm) ∧ quiet_step st st2 evm ∧
      lidar_handler d srv st2 pm = some (st3, ev3) ∧
      ev3.countP is_exists_query = 1 ∧
      calls ev3 = (if srv.service_exists then 1 else 0) ∧
      resets ev3 = (if srv.service_exists && srv.call_ok then 1 else 0) ∧
      st3.has_reset_pps_counter = (srv.service_exists && srv.call_ok) ∧
      st3.timestamp_translator =
        (if srv.service_exists && srv.call_ok then
          d.resetPpsSecondCounter st.timestamp_translator srv.time_of_reset
        else st.timestamp_translator) := by
  simp only [next_scan_in_window, Bool.and_eq_true] at hn
  obtain ⟨hmid, hpm⟩ := hn
  obtain ⟨st2, evm, h2, hq⟩ := run_off_window d st mid hmid
  rw [h2] at hpm
  simp only at hpm
  obtain ⟨b, ls, hd, hb, hf, hw⟩ := scan_in_window_elim d st2 pm hpm
  have hflag2 : st2.has_reset_pps_counter = false := hq.2.2.2.1.trans hflag
  obtain ⟨st3, ev3, h3, q3, c3, -, r3, g3, t3⟩ :=
    open_summary d srv st2 pm b ls hd hb hf hflag2 hw
  rw [hq.2.2.2.2] at t3
  exact ⟨st2, evm, st3, ev3, h2, hq, h3, q3, c3, r3, g3, t3⟩

/-! ## The claims -/

/-- C1: when a packet completes a scan whose first non-zero header timestamp
`t` has `t mod 1 s` at most 300 ms or at least 500 ms, the lidar handler,
for every value of the flag and every answer of the service, returns
without querying or calling the PPS reset service and without touching the
translator or the flag.  The bounds 300 ms and 500 ms themselves are
covered. -/
theorem no_handshake_outside_window (d : Collaborators B T C M I)
    (srv : PpsResetClient) (st : Pipeline B T C) (pm : PacketMsg) (b : B)
    (ls : LidarScan) (hd : BlockHeader)
    (hb : d.batch st.batch pm.buf st.ls = (true, b, ls))
    (hf : find_if ls.headers = some hd)
    (hphase : hd.timestamp % 1000000000 ≤ ms 300 ∨
      ms 500 ≤ hd.timestamp % 1000000000) :
    ∃ st1 evs, lidar_handler d srv st pm = some (st1, evs) ∧
      calls evs = 0 ∧ evs.countP is_exists_query = 0 ∧ resets evs = 0 ∧
      st1.has_reset_pps_counter = st.has_reset_pps_counter ∧
      st1.timestamp_translator = st.timestamp_translator := by
  have hw : in_window hd.timestamp = false := by
    cases h : in_window hd.timestamp with
    | false => rfl
    | true =>
      rw [in_window_iff] at h
      simp only [ms] at h hphase
      omega
  obtain ⟨st1, evs, h1, c1, r1, q1, f1, t1⟩ :=
    quiet_closed d srv st pm b ls hd hb hf (Or.inr hw)
  exact ⟨st1, evs, h1, c1, q1, r1, f1, t1⟩

/-- C3: with `has_reset_pps_counter` true, the lidar handler, on every
packet and for every answer of the service, returns without calling the PPS
reset service, without calling `resetPpsSecondCounter`, and leaves the flag
true and the translator as it was; the same holds over every sequence of
packets handled with no re-arm in between. -/
theorem no_handshake_once_reset (d : Collaborators B T C M I)
    (st : Pipeline B T C) (hflag : st.has_reset_pps_counter = true) :
    (∀ srv pm, ∃ st1 evs, lidar_handler d srv st pm = some (st1, evs) ∧
      calls evs = 0 ∧ evs.countP is_exists_query = 0 ∧ resets evs = 0 ∧
      st1.has_reset_pps_counter = true ∧
      st1.timestamp_translator = st.timestamp_translator) ∧
    (∀ steps, ∃ st1 evs, run d st steps = some (st1, evs) ∧
      calls evs = 0 ∧ evs.countP is_exists_query = 0 ∧ resets evs = 0 ∧
      st1.has_reset_pps_counter = true ∧
      st1.timestamp_translator = st.timestamp_translator) := by
  constructor
  · intro srv pm
    obtain ⟨st1, evs, h1, c1, r1, q1, f1, t1⟩ := quiet_flag_true d srv st pm hflag
    exact ⟨st1, evs, h1, c1, q1, r1, f1.trans hflag, t1⟩
  · intro steps
    obtain ⟨st1, evs, h1, c1, r1, q1, f1, t1⟩ := run_flag_true d st steps hflag
    exact ⟨st1, evs, h1, c1, q1, r1, f1.trans hflag, t1⟩

/-- C6: the re-arm trigger sets `has_reset_pps_counter` to false, leaves the
translator, the scan buffer, the batcher and the cloud unchanged, calls no
collaborator, sets `success` in the response, returns true, and running it
again on its own result changes nothing. -/
theorem trigger_rearms (st : Pipeline B T C) (req : Unit) (res : TriggerResponse) :
    (@trigger_reset_pps_second_counter B T C M I st req res).1
        = { st with has_reset_pps_counter := false } ∧
    (@trigger_reset_pps_second_counter B T C M I st req res).1.timestamp_translator
        = st.timestamp_translator ∧
    (@trigger_reset_pps_second_counter B T C M I st req res).1.ls = st.ls ∧
    (@trigger_reset_pps_second_counter B T C M I st req res).2.2.2 = [] ∧
    (@trigger_reset_pps_second_counter B T C M I st req res).2.1.success = true ∧
    (@trigger_reset_pps_second_counter B T C M I st req res).2.1.message = res.message ∧
    (@trigger_reset_pps_second_counter B T C M I st req res).2.2.1 = true ∧
    @trigger_reset_pps_second_counter B T C M I
        (@trigger_reset_pps_second_counter B T C M I st req res).1 req
        (@trigger_reset_pps_second_counter B T C M I st req res).2.1
      = @trigger_reset_pps_second_counter B T C M I st req res := by
  refine ⟨rfl, rfl, rfl, rfl, rfl, rfl, rfl, rfl⟩

/-- C7: when a packet completes a scan whose first non-zero header timestamp
lies strictly inside (300 ms, 500 ms), the flag is false, the PPS reset
service exists and its call succeeds with `time_of_reset = r`, the handler
calls `resetPpsSecondCounter` exactly once, with `r`, sets the flag, and the
reset precedes every publish of that scan: each frame of the scan is
converted with the translator as it is after the reset. -/
theorem successful_handshake_resets_translator (d : Collaborators B T C M I)
    (srv : PpsResetClient) (st : Pipeline B T C) (pm : PacketMsg) (b : B)
    (ls : LidarScan) (hd : BlockHeader)
    (hb : d.batch st.batch pm.buf st.ls = (true, b, ls))
    (hf : find_if ls.headers = some hd)
    (hw : ms 300 < hd.timestamp ∧ hd.timestamp < ms 500)
    (hflag : st.has_reset_pps_counter = false)
    (hex : srv.service_exists = true) (hok : srv.call_ok = true) :
    ∃ st1 evs, lidar_handler d srv st pm = some (st1, evs) ∧
      st1.has_reset_pps_counter = true ∧
      st1.timestamp_translator =
        d.resetPpsSecondCounter st.timestamp_translator srv.time_of_reset ∧
      resets evs = 1 ∧ calls evs = 1 ∧
      evs = [Event.exists_query, Event.call true,
              Event.resetPpsSecondCounter srv.time_of_reset, Event.ros_info] ++
            (publish_returns d hd.timestamp ls
              (d.resetPpsSecondCounter st.timestamp_translator srv.time_of_reset)
              (n_returns d) 0 st.cloud).2 ∧
      (frames evs).length = n_returns d ∧
      ∀ f ∈ frames evs, ∃ c0,
        f.2 = d.cloud_to_cloud_msg (d.scan_to_cloud hd.timestamp ls c0 f.1)
          hd.timestamp
          (d.resetPpsSecondCounter st.timestamp_translator srv.time_of_reset) := by
  have hw1 : in_window hd.timestamp = true := (in_window_iff _).2 hw
  refine ⟨_, _, lidar_handler_open d srv st pm b ls hd hb hf hflag hw1, ?_⟩
  have q2 := countP_publish_returns (is_call : Event M I → Bool) (fun _ _ => rfl) d
  have q4 := countP_publish_returns (is_reset : Event M I → Bool) (fun _ _ => rfl) d
  have hp : pps_reset d srv { st with batch := b, ls := ls } =
      ({ st with
          batch := b, ls := ls
          timestamp_translator :=
            d.resetPpsSecondCounter st.timestamp_translator srv.time_of_reset
          has_reset_pps_counter := true },
        [Event.exists_query, Event.call true,
         Event.resetPpsSecondCounter srv.time_of_reset, Event.ros_info]) := by
    simp [pps_reset, hex, hok]
  rw [hp]
  refine ⟨rfl, rfl, ?_, ?_, rfl, ?_, ?_⟩
  · simp [resets, List.countP_cons, q4, is_reset]
  · simp [calls, List.countP_cons, q2, is_call]
  · rw [frames_append, List.length_append, frames_publish_returns_length]
    simp [frames]
  · intro f hfm
    rw [frames_append] at hfm
    have h0 : frames ([Event.exists_query, Event.call true,
        Event.resetPpsSecondCounter srv.time_of_reset, Event.ros_info] :
          List (Event M I)) = [] := rfl
    simp only [h0, List.nil_append] at hfm
    exact frames_publish_returns_stamp d _ _ _ _ _ _ f hfm

/-- C8: when a packet completes a scan that has a header with a non-zero
timestamp, the handler publishes `n_returns` frames, one with the LEGACY
(single-return) profile and two with the dual-return profile; the frames
are built from the return indices 0, 1, ... in that order, and all are
converted from the first non-zero header timestamp with one translator
state, the one the handler leaves behind. -/
theorem frames_per_scan (d : Collaborators B T C M I)
    (srv : PpsResetClient) (st : Pipeline B T C) (pm : PacketMsg) (b : B)
    (ls : LidarScan) (hd : BlockHeader)
    (hb : d.batch st.batch pm.buf st.ls = (true, b, ls))
    (hf : find_if ls.headers = some hd) :
    ∃ st1 evs, lidar_handler d srv st pm = some (st1, evs) ∧
      (frames evs).map Prod.fst = List.range (n_returns d) ∧
      (frames evs).length = n_returns d ∧
      (d.udp_profile_lidar = UDPProfileLidar.PROFILE_LIDAR_LEGACY →
        (frames evs).length = 1) ∧
      (d.udp_profile_lidar = UDPProfileLidar.PROFILE_RNG19_RFL8_SIG16_NIR16_DUAL →
        (frames evs).length = 2) ∧
      (d.udp_profile_lidar ≠ UDPProfileLidar.PROFILE_LIDAR_LEGACY →
        (frames evs).length = 2) ∧
      ∀ f ∈ frames evs, ∃ c0,
        f.2 = d.cloud_to_cloud_msg (d.scan_to_cloud hd.timestamp ls c0 f.1)
          hd.timestamp st1.timestamp_translator := by
  have key : ∃ st1 evs, lidar_handler d srv st pm = some (st1, evs) ∧
      frames evs = frames (publish_returns d hd.timestamp ls
        st1.timestamp_translator (n_returns d) 0 st.cloud).2 := by
    cases hflag : st.has_reset_pps_counter with
    | true =>
      exact ⟨_, _, lidar_handler_closed d srv st pm b ls hd hb hf (Or.inl hflag), rfl⟩
    | false =>
      cases hw : in_window hd.timestamp with
      | false =>
        exact ⟨_, _, lidar_handler_closed d srv st pm b ls hd hb hf (Or.inr hw), rfl⟩
      | true =>
        refine ⟨_, _, lidar_handler_open d srv st pm b ls hd hb hf hflag hw, ?_⟩
        rw [frames_append, frames_pps_reset]
        rfl
  obtain ⟨st1, evs, h1, hfr⟩ := key
  refine ⟨st1, evs, h1, ?_, ?_, ?_, ?_, ?_, ?_⟩
  · rw [hfr, frames_publish_returns_index, List.range_eq_range']
  · rw [hfr, frames_publish_returns_length]
  · intro hp
    rw [hfr, frames_publish_returns_length]
    simp [n_returns, hp]
  · intro hp
    rw [hfr, frames_publish_returns_length]
    simp [n_returns, hp]
  · intro hp
    rw [hfr, frames_publish_returns_length]
    simp [n_returns, hp]
  · intro f hfm
    rw [hfr] at hfm
    exact frames_publish_returns_stamp d _ _ _ _ _ _ f hfm

/-- C2, counterexample: two completed scans in the window, flag false at
the start, no re-arm, the service reachable and both calls failing: the
handler calls the PPS reset service twice. -/
theorem two_failed_handshakes_two_calls :
    (pipeline0 false).has_reset_pps_counter = false ∧
    along scan_in_window
      (spec_collaborators UDPProfileLidar.PROFILE_RNG19_RFL8_SIG16_NIR16_DUAL)
      (pipeline0 false)
      [({ service_exists := true, call_ok := false, time_of_reset := 0 }, packet_400ms),
       ({ service_exists := true, call_ok := false, time_of_reset := 0 }, packet_400ms)]
      = true ∧
    (run (spec_collaborators UDPProfileLidar.PROFILE_RNG19_RFL8_SIG16_NIR16_DUAL)
      (pipeline0 false)
      [({ service_exists := true, call_ok := false, time_of_reset := 0 }, packet_400ms),
       ({ service_exists := true, call_ok := false, time_of_reset := 0 }, packet_400ms)]).map
      (fun r => calls r.2) = some 2 := by
  refine ⟨rfl, ?_, ?_⟩ <;> decide

/-- C2, amended: over every sequence of packets in which every completed
scan has its first non-zero header timestamp strictly inside (300 ms,
500 ms) (packets that complete no scan may come before, between and after
the scans), handled from flag false with no re-arm in between, and for
every behaviour of the service, the handler returns on every packet, at
most one call of the PPS reset service succeeds (at most one reset of the
translator), and the number of calls is at most the number of failed calls
plus one; so at most one call is issued when no call fails. -/
theorem handshake_calls_bounded_by_failures (d : Collaborators B T C M I)
    (st : Pipeline B T C) (steps : List (PpsResetClient × PacketMsg))
    (hflag : st.has_reset_pps_counter = false)
    (hwin : along scan_in_window_if_completed d st steps = true) :
    ∃ st1 evs, run d st steps = some (st1, evs) ∧
      resets evs ≤ 1 ∧
      calls evs = failed_calls evs + resets evs ∧
      calls evs ≤ failed_calls evs + 1 ∧
      (failed_calls evs = 0 → calls evs ≤ 1) := by
  obtain ⟨st1, evs, h1, hc, hr⟩ := run_in_window d st steps hflag hwin
  exact ⟨st1, evs, h1, hr, hc, by omega, by omega⟩

/-- C4: when a packet completes a scan whose first non-zero header timestamp
lies strictly inside (300 ms, 500 ms), the flag is false, and the PPS reset
service is unreachable or its call fails, the handler returns with the flag
still false and the translator unchanged, having made no call of
`resetPpsSecondCounter`; and the next completed scan in the window (after
any packets that complete no scan in the window) enters the handshake
again: the handler queries the service, calls it when it is reachable, and
resets the translator when that call succeeds. -/
theorem failed_handshake_is_retried (d : Collaborators B T C M I)
    (srv : PpsResetClient) (st : Pipeline B T C) (pm : PacketMsg) (b : B)
    (ls : LidarScan) (hd : BlockHeader)
    (hb : d.batch st.batch pm.buf st.ls = (true, b, ls))
    (hf : find_if ls.headers = some hd)
    (hw : ms 300 < hd.timestamp ∧ hd.timestamp < ms 500)
    (hflag : st.has_reset_pps_counter = false)
    (hfail : srv.service_exists = false ∨ srv.call_ok = false) :
    ∃ st1 evs, lidar_handler d srv st pm = some (st1, evs) ∧
      st1.has_reset_pps_counter = false ∧
      st1.timestamp_translator = st.timestamp_translator ∧
      resets evs = 0 ∧
      ∀ mid srv2 pm2, next_scan_in_window d st1 mid pm2 = true →
        ∃ st2 evm st3 ev3, run d st1 mid = some (st2, evm) ∧
          calls evm = 0 ∧
          lidar_handler d srv2 st2 pm2 = some (st3, ev3) ∧
          ev3.countP is_exists_query = 1 ∧
          calls ev3 = (if srv2.service_exists then 1 else 0) ∧
          st3.has_reset_pps_counter = (srv2.service_exists && srv2.call_ok) ∧
          st3.timestamp_translator =
            (if srv2.service_exists && srv2.call_ok then
              d.resetPpsSecondCounter st.timestamp_translator srv2.time_of_reset
            else st.timestamp_translator) := by
  have hw1 : in_window hd.timestamp = true := (in_window_iff _).2 hw
  obtain ⟨st1, evs, h1, -, -, -, r1, g1, t1⟩ :=
    open_summary d srv st pm b ls hd hb hf hflag hw1
  have hs : (srv.service_exists && srv.call_ok) = false := by
    rcases hfail with h | h <;> simp [h]
  rw [hs] at g1 r1 t1
  refine ⟨st1, evs, h1, g1, t1, r1, ?_⟩
  intro mid srv2 pm2 hn
  obtain ⟨st2, evm, st3, ev3, h2, hq, h3, q3, c3, -, g3, t3⟩ :=
    next_scan_summary d st1 mid srv2 pm2 g1 hn
  have t1f : st1.timestamp_translator = st.timestamp_translator := by simpa using t1
  rw [t1f] at t3
  exact ⟨st2, evm, st3, ev3, h2, hq.1, h3, q3, c3, g3, t3⟩

/-- C5, counterexample: after the re-arm trigger, a completed scan in the
window handled while the PPS reset service is unreachable issues no call of
the service. -/
theorem rearm_unreachable_service_no_call :
    next_scan_in_window
      (spec_collaborators UDPProfileLidar.PROFILE_RNG19_RFL8_SIG16_NIR16_DUAL)
      (@trigger_reset_pps_second_counter ScanBatcher SyncState Cloud CloudMsg ImuMsg
        (pipeline0 true) () { success := false, message := [] }).1
      [] packet_400ms = true ∧
    (lidar_handler
      (spec_collaborators UDPProfileLidar.PROFILE_RNG19_RFL8_SIG16_NIR16_DUAL)
      { service_exists := false, call_ok := true, time_of_reset := 7000000000 }
      (@trigger_reset_pps_second_counter ScanBatcher SyncState Cloud CloudMsg ImuMsg
        (pipeline0 true) () { success := false, message := [] }).1
      packet_400ms).map (fun r => calls r.2) = some 0 := by
  refine ⟨?_, ?_⟩ <;> decide

/-- C5, amended: after the re-arm trigger has run (from any prior flag
value), the next completed scan whose first non-zero header timestamp lies
strictly inside (300 ms, 500 ms) makes the handler query the PPS reset
service once and issue exactly one call of it when the service exists, and
no call when it does not exist; the packets handled in between issue no
call. -/
theorem rearm_then_one_handshake_if_reachable (d : Collaborators B T C M I)
    (st0 : Pipeline B T C) (req : Unit) (res : TriggerResponse)
    (mid : List (PpsResetClient × PacketMsg)) (srv : PpsResetClient)
    (pm : PacketMsg)
    (hnext : next_scan_in_window d
      (@trigger_reset_pps_second_counter B T C M I st0 req res).1 mid pm = true) :
    ∃ st2 evm st3 ev3,
      run d (@trigger_reset_pps_second_counter B T C M I st0 req res).1 mid
        = some (st2, evm) ∧
      calls evm = 0 ∧
      lidar_handler d srv st2 pm = some (st3, ev3) ∧
      ev3.countP is_exists_query = 1 ∧
      calls ev3 = (if srv.service_exists then 1 else 0) := by
  obtain ⟨st2, evm, st3, ev3, h2, hq, h3, q3, c3, -, -, -⟩ :=
    next_scan_summary d _ mid srv pm rfl hnext
  exact ⟨st2, evm, st3, ev3, h2, hq.1, h3, q3, c3⟩

/-- C9, counterexample: two pipelines whose translators are anchored on
different reference epochs stamp the lidar frames of the same scan
differently, yet the imu handler emits the same sample, with the same
timestamp, from both. -/
theorem imu_sample_same_under_different_anchors :
    (pipeline_anchored true 7000000000).timestamp_translator.translate 400000000
      ≠ (pipeline_anchored true 9000000000).timestamp_translator.translate 400000000 ∧
    (lidar_handler
      (spec_collaborators UDPProfileLidar.PROFILE_LIDAR_LEGACY)
      { service_exists := true, call_ok := true, time_of_reset := 0 }
      (pipeline_anchored true 7000000000) packet_400ms).map (fun r => frames r.2)
      = some [(0, { stamp := 7400000000, return_index := 0, points := [5, 6] })] ∧
    (lidar_handler
      (spec_collaborators UDPProfileLidar.PROFILE_LIDAR_LEGACY)
      { service_exists := true, call_ok := true, time_of_reset := 0 }
      (pipeline_anchored true 9000000000) packet_400ms).map (fun r => frames r.2)
      = some [(0, { stamp := 9400000000, return_index := 0, points := [5, 6] })] ∧
    (imu_handler (spec_collaborators UDPProfileLidar.PROFILE_LIDAR_LEGACY)
      (pipeline_anchored true 7000000000) packet_imu).2
      = [Event.publish_imu { stamp := 400000000 }] ∧
    (imu_handler (spec_collaborators UDPProfileLidar.PROFILE_LIDAR_LEGACY)
      (pipeline_anchored true 9000000000) packet_imu).2
      = [Event.publish_imu { stamp := 400000000 }] := by
  refine ⟨?_, ?_, ?_, ?_, ?_⟩ <;> decide

/-- C9, amended: for every inertial packet the imu handler publishes the
sample `packet_to_imu_msg` computes from the packet alone: the sample does
not depend on the translator (nor on any other part of the pipeline state),
the handler leaves the pipeline state unchanged, and it performs no window
test and no handshake. -/
theorem imu_sample_ignores_translator (d : Collaborators B T C M I)
    (stA stB : Pipeline B T C) (p : PacketMsg) :
    (imu_handler d stA p).2 = (imu_handler d stB p).2 ∧
    (imu_handler d stA p).2 = [Event.publish_imu (d.packet_to_imu_msg p)] ∧
    (imu_handler d stA p).1 = stA ∧
    calls (imu_handler d stA p).2 = 0 ∧
    (imu_handler d stA p).2.countP is_exists_query = 0 ∧
    resets (imu_handler d stA p).2 = 0 := by
  refine ⟨rfl, rfl, rfl, rfl, rfl, rfl⟩

/-- C10, the code at the failing input: a packet completes a scan all of
whose header timestamps are zero; with the flag false the handler reads
`h->timestamp` through `headers.end()` (no defined result), with the flag
true it returns without publishing. -/
theorem gate_reads_header_at_end :
    completed_scan_ts
      (spec_collaborators UDPProfileLidar.PROFILE_RNG19_RFL8_SIG16_NIR16_DUAL)
      (pipeline0 false) packet_zero = some none ∧
    lidar_handler
      (spec_collaborators UDPProfileLidar.PROFILE_RNG19_RFL8_SIG16_NIR16_DUAL)
      { service_exists := true, call_ok := true, time_of_reset := 7000000000 }
      (pipeline0 false) packet_zero = none ∧
    (lidar_handler
      (spec_collaborators UDPProfileLidar.PROFILE_RNG19_RFL8_SIG16_NIR16_DUAL)
      { service_exists := true, call_ok := true, time_of_reset := 7000000000 }
      (pipeline0 true) packet_zero).map (fun r => r.2) = some [] := by
  refine ⟨?_, ?_, ?_⟩ <;> decide

/-! ## The theorems at concrete inputs -/

/-- C1 at a concrete input: a scan whose first non-zero header timestamp is
exactly 300 ms, flag false, service reachable. -/
theorem no_handshake_outside_window_witness :
    dual.batch (pipeline0 false).batch packet_300ms.buf (pipeline0 false).ls
      = (true, { last_column := some 0 }, scan_after 300000000) ∧
    find_if (scan_after 300000000).headers
      = some { timestamp := 300000000, status := 1 } ∧
    ((300000000 : Int) % 1000000000 ≤ ms 300 ∨ ms 500 ≤ (300000000 : Int) % 1000000000) ∧
    ∃ st1 evs, lidar_handler dual srv_ok (pipeline0 false) packet_300ms = some (st1, evs) ∧
      calls evs = 0 ∧ evs.countP is_exists_query = 0 ∧ resets evs = 0 ∧
      st1.has_reset_pps_counter = (pipeline0 false).has_reset_pps_counter ∧
      st1.timestamp_translator = (pipeline0 false).timestamp_translator :=
  ⟨by decide, by decide, by decide,
    no_handshake_outside_window dual srv_ok (pipeline0 false) packet_300ms
      { last_column := some 0 } (scan_after 300000000)
      { timestamp := 300000000, status := 1 } (by decide) (by decide) (by decide)⟩

/-- C2 (amended) at a concrete input: a scan at 400 ms whose call fails, a
packet that completes no scan, then two scans at 400 ms with the service
answering; two calls, one failed, one reset. -/
theorem handshake_calls_bounded_by_failures_witness :
    (pipeline0 false).has_reset_pps_counter = false ∧
    along scan_in_window_if_completed dual (pipeline0 false)
      [(srv_fail, packet_400ms), (srv_ok, packet_col1), (srv_ok, packet_400ms),
       (srv_ok, packet_400ms)] = true ∧
    (run dual (pipeline0 false)
      [(srv_fail, packet_400ms), (srv_ok, packet_col1), (srv_ok, packet_400ms),
       (srv_ok, packet_400ms)]).map
      (fun r => (calls r.2, failed_calls r.2, resets r.2)) = some (2, 1, 1) ∧
    ∃ st1 evs, run dual (pipeline0 false)
        [(srv_fail, packet_400ms), (srv_ok, packet_col1), (srv_ok, packet_400ms),
         (srv_ok, packet_400ms)]
        = some (st1, evs) ∧
      resets evs ≤ 1 ∧
      calls evs = failed_calls evs + resets evs ∧
      calls evs ≤ failed_calls evs + 1 ∧
      (failed_calls evs = 0 → calls evs ≤ 1) :=
  ⟨by decide, by decide, by decide,
    handshake_calls_bounded_by_failures dual (pipeline0 false)
      [(srv_fail, packet_400ms), (srv_ok, packet_col1), (srv_ok, packet_400ms),
       (srv_ok, packet_400ms)]
      (by decide) (by decide)⟩

/-- C3 at a concrete input: flag true, a scan in the window, service
reachable. -/
theorem no_handshake_once_reset_witness :
    (pipeline0 true).has_reset_pps_counter = true ∧
    ∃ st1 evs, lidar_handler dual srv_ok (pipeline0 true) packet_400ms = some (st1, evs) ∧
      calls evs = 0 ∧ evs.countP is_exists_query = 0 ∧ resets evs = 0 ∧
      st1.has_reset_pps_counter = true ∧
      st1.timestamp_translator = (pipeline0 true).timestamp_translator :=
  ⟨by decide,
    (no_handshake_once_reset dual (pipeline0 true) (by decide)).1 srv_ok packet_400ms⟩

/-- C7 at a concrete input: a scan at 400 ms, flag false, the call
succeeding with 7 s. -/
theorem successful_handshake_resets_translator_witness :
    dual.batch (pipeline0 false).batch packet_400ms.buf (pipeline0 false).ls
      = (true, { last_column := some 0 }, scan_after 400000000) ∧
    find_if (scan_after 400000000).headers
      = some { timestamp := 400000000, status := 1 } ∧
    (ms 300 < (400000000 : Int) ∧ (400000000 : Int) < ms 500) ∧
    (pipeline0 false).has_reset_pps_counter = false ∧
    srv_ok.service_exists = true ∧ srv_ok.call_ok = true ∧
    ∃ st1 evs, lidar_handler dual srv_ok (pipeline0 false) packet_400ms = some (st1, evs) ∧
      st1.has_reset_pps_counter = true ∧
      st1.timestamp_translator =
        dual.resetPpsSecondCounter (pipeline0 false).timestamp_translator 7000000000 ∧
      resets evs = 1 ∧ calls evs = 1 ∧
      evs = [Event.exists_query, Event.call true,
              Event.resetPpsSecondCounter 7000000000, Event.ros_info] ++
            (publish_returns dual 400000000 (scan_after 400000000)
              (dual.resetPpsSecondCounter (pipeline0 false).timestamp_translator 7000000000)
              (n_returns dual) 0 (pipeline0 false).cloud).2 ∧
      (frames evs).length = n_returns dual ∧
      ∀ f ∈ frames evs, ∃ c0,
        f.2 = dual.cloud_to_cloud_msg
          (dual.scan_to_cloud 400000000 (scan_after 400000000) c0 f.1) 400000000
          (dual.resetPpsSecondCounter (pipeline0 false).timestamp_translator 7000000000) :=
  ⟨by decide, by decide, by decide, by decide, by decide, by decide,
    successful_handshake_resets_translator dual srv_ok (pipeline0 false) packet_400ms
      { last_column := some 0 } (scan_after 400000000)
      { timestamp := 400000000, status := 1 }
      (by decide) (by decide) (by decide) (by decide) (by decide) (by decide)⟩

/-- C8 at a concrete input: a scan at 400 ms with the dual-return profile. -/
theorem frames_per_scan_witness :
    dual.batch (pipeline0 false).batch packet_400ms.buf (pipeline0 false).ls
      = (true, { last_column := some 0 }, scan_after 400000000) ∧
    find_if (scan_after 400000000).headers
      = some { timestamp := 400000000, status := 1 } ∧
    ∃ st1 evs, lidar_handler dual srv_fail (pipeline0 false) packet_400ms = some (st1, evs) ∧
      (frames evs).map Prod.fst = List.range (n_returns dual) ∧
      (frames evs).length = n_returns dual ∧
      (dual.udp_profile_lidar = UDPProfileLidar.PROFILE_LIDAR_LEGACY →
        (frames evs).length = 1) ∧
      (dual.udp_profile_lidar = UDPProfileLidar.PROFILE_RNG19_RFL8_SIG16_NIR16_DUAL →
        (frames evs).length = 2) ∧
      (dual.udp_profile_lidar ≠ UDPProfileLidar.PROFILE_LIDAR_LEGACY →
        (frames evs).length = 2) ∧
      ∀ f ∈ frames evs, ∃ c0,
        f.2 = dual.cloud_to_cloud_msg
          (dual.scan_to_cloud 400000000 (scan_after 400000000) c0 f.1) 400000000
          st1.timestamp_translator :=
  ⟨by decide, by decide,
    frames_per_scan dual srv_fail (pipeline0 false) packet_400ms
      { last_column := some 0 } (scan_after 400000000)
      { timestamp := 400000000, status := 1 } (by decide) (by decide)⟩

/-- C5 (amended) at a concrete input: re-arm from flag true, then a scan at
500 ms, then a scan at 400 ms. -/
theorem rearm_then_one_handshake_if_reachable_witness :
    next_scan_in_window dual
      (@trigger_reset_pps_second_counter ScanBatcher SyncState Cloud CloudMsg ImuMsg
        (pipeline0 true) () { success := false, message := [] }).1
      [(srv_ok, packet_500ms)] packet_400ms = true ∧
    ∃ st2 evm st3 ev3,
      run dual (@trigger_reset_pps_second_counter ScanBatcher SyncState Cloud CloudMsg ImuMsg
        (pipeline0 true) () { success := false, message := [] }).1
        [(srv_ok, packet_500ms)] = some (st2, evm) ∧
      calls evm = 0 ∧
      lidar_handler dual srv_fail st2 packet_400ms = some (st3, ev3) ∧
      ev3.countP is_exists_query = 1 ∧
      calls ev3 = (if srv_fail.service_exists then 1 else 0) :=
  ⟨by decide,
    rearm_then_one_handshake_if_reachable dual (pipeline0 true) ()
      { success := false, message := [] } [(srv_ok, packet_500ms)] srv_fail
      packet_400ms (by decide)⟩

/-- C4 at a concrete input: a scan at 400 ms whose call fails, then a packet
that completes no scan, then a scan at 400 ms whose call succeeds. -/
theorem failed_handshake_is_retried_witness :
    dual.batch (pipeline0 false).batch packet_400ms.buf (pipeline0 false).ls
      = (true, { last_column := some 0 }, scan_after 400000000) ∧
    find_if (scan_after 400000000).headers
      = some { timestamp := 400000000, status := 1 } ∧
    (ms 300 < (400000000 : Int) ∧ (400000000 : Int) < ms 500) ∧
    (pipeline0 false).has_reset_pps_counter = false ∧
    (srv_fail.service_exists = false ∨ srv_fail.call_ok = false) ∧
    ∃ st1 evs st2 evm st3 ev3,
      lidar_handler dual srv_fail (pipeline0 false) packet_400ms = some (st1, evs) ∧
      st1.has_reset_pps_counter = false ∧
      st1.timestamp_translator = (pipeline0 false).timestamp_translator ∧
      resets evs = 0 ∧
      next_scan_in_window dual st1 [(srv_ok, packet_col1)] packet_400ms = true ∧
      run dual st1 [(srv_ok, packet_col1)] = some (st2, evm) ∧
      calls evm = 0 ∧
      lidar_handler dual srv_ok st2 packet_400ms = some (st3, ev3) ∧
      calls ev3 = 1 ∧
      st3.has_reset_pps_counter = true := by
  obtain ⟨st1, evs, h1, g1, t1, r1, hnext⟩ :=
    failed_handshake_is_retried dual srv_fail (pipeline0 false) packet_400ms
      { last_column := some 0 } (scan_after 400000000)
      { timestamp := 400000000, status := 1 }
      (by decide) (by decide) (by decide) (by decide) (by decide)
  have hn : next_scan_in_window dual st1 [(srv_ok, packet_col1)] packet_400ms = true := by
    have hv : (lidar_handler dual srv_fail (pipeline0 false) packet_400ms).map
        (fun r => next_scan_in_window dual r.1 [(srv_ok, packet_col1)] packet_400ms)
        = some true := by decide
    rw [h1] at hv
    simpa using hv
  obtain ⟨st2, evm, st3, ev3, h2, c2, h3, -, c3, g3, -⟩ :=
    hnext [(srv_ok, packet_col1)] srv_ok packet_400ms hn
  exact ⟨by decide, by decide, by decide, by decide, by decide,
    st1, evs, st2, evm, st3, ev3, h1, g1, t1, r1, hn, h2, c2, h3, c3, g3⟩

end OsCloudNode
